import Mathlib

/-!
Verification of the request-building and response-normalization pipeline of the
`mcp-google-ads` tool server (`google_ads_mcp.py`), via a shallow embedding of
its validation, error-handling, rendering and truncation functions.
-/

namespace GoogleAdsMcp

/-- `CHARACTER_LIMIT = 25000`, the shared maximum response size in characters. -/
def CHARACTER_LIMIT : Nat := 25000

/-! ## Customer-id validation (`_validate_customer_id` and the pydantic field) -/

/-- Embedding of Python `customer_id.replace("-", "")`: remove every dash. -/
def stripDashes (s : String) : String :=
  String.mk (s.data.filter (fun c => c ≠ '-'))

/-- Embedding of `_validate_customer_id`: strip dashes, require length 10,
then require all characters to be digits; returns the stripped id. -/
def validateCustomerId (customerId : String) : Except String String :=
  let cid := stripDashes customerId
  if cid.length ≠ 10 then
    .error ("Customer ID must be 10 digits, got " ++ toString cid.length)
  else if ¬ cid.data.all Char.isDigit then
    .error "Customer ID must contain only digits"
  else
    .ok cid

/-- Embedding of pydantic `str_strip_whitespace`: strip whitespace from both
ends of the string. -/
def pyStrip (s : String) : String :=
  String.mk (((s.data.dropWhile Char.isWhitespace).reverse.dropWhile
    Char.isWhitespace).reverse)

/-- Embedding of the pydantic field constraint on every `customer_id` input
(`min_length=10, max_length=10` with `str_strip_whitespace=True`): the raw
string, after whitespace stripping, must have length exactly 10. -/
def customerIdFieldAccepts (raw : String) : Bool :=
  (pyStrip raw).length == 10

/-- Embedding of the operation-level validation path of e.g.
`google_ads_get_account_info`: the pydantic field constraint is checked first,
and only then is `_validate_customer_id` applied to the (stripped) field value. -/
def operationValidateCustomerId (raw : String) : Except String String :=
  if customerIdFieldAccepts raw then
    validateCustomerId (pyStrip raw)
  else
    .error "String should have 10 characters"

/-! ## Response guard (`_check_and_truncate`) -/

/-- Insert a `','` after every third character of a reversed digit list,
working from the least significant digit (`k` counts digits already taken). -/
def commaRev : List Char → Nat → List Char
  | [], _ => []
  | c :: rest, k =>
    if k % 3 = 0 ∧ k ≠ 0 then ',' :: c :: commaRev rest (k + 1)
    else c :: commaRev rest (k + 1)

/-- Embedding of Python integer formatting with a thousands separator
(`f"{n:,}"`), as used in the truncation warning. -/
def commaGroup (n : Nat) : String :=
  String.mk ((commaRev (toString n).data.reverse 0).reverse)

/-- The fixed-format truncation warning appended by `_check_and_truncate`,
stating the original length and the limit (both comma-grouped). -/
def truncWarning (origLen limit : Nat) : String :=
  "\n\n⚠️ **Response truncated** from " ++ commaGroup origLen ++
    (" to " ++ (commaGroup limit ++
      " characters. Use filters, pagination, or reduce date range to see more data."))

/-- Embedding of Python character slicing `s[:n]`. -/
def pyTake (s : String) (n : Nat) : String :=
  String.mk (s.data.take n)

/-- Embedding of `_check_and_truncate`: return the response unchanged when its
length is within `limit`, otherwise the first `limit` characters followed by
the truncation warning. -/
def checkAndTruncate (limit : Nat) (response : String) : String :=
  if response.length ≤ limit then response
  else pyTake response limit ++ truncWarning response.length limit

/-- `needle` occurs contiguously inside `hay`. -/
def isSubstrOf (needle hay : String) : Prop :=
  ∃ a b, hay = a ++ (needle ++ b)

/-- A 25001-character string, used to exercise the truncation branch. -/
def bigString25001 : String :=
  String.mk (List.replicate 25001 'a')

/-! ## Account listing (`google_ads_list_accounts`, markdown branch) -/

/-- One account row as collected by `google_ads_list_accounts`. -/
structure AccountRec where
  id : String
  name : String
  currencyCode : String
  status : String
  timezone : String
  deriving DecidableEq

/-- The five lines appended per account in the markdown branch. -/
def accountLines (a : AccountRec) : List String :=
  ["## " ++ a.name ++ " (" ++ a.id ++ ")",
   "- **Currency**: " ++ a.currencyCode,
   "- **Status**: " ++ a.status,
   "- **Timezone**: " ++ a.timezone,
   ""]

/-- The markdown rendering built by `google_ads_list_accounts`
(`"\n".join(lines)`). -/
def listAccountsMarkdown (accounts : List AccountRec) : String :=
  String.intercalate "\n"
    (["# Google Ads Accounts", "",
      "Found **" ++ toString accounts.length ++ "** accessible account(s)", ""]
     ++ accounts.flatMap accountLines)

/-- The success result of the markdown branch of `google_ads_list_accounts`:
the rendered string is returned directly, without `_check_and_truncate`. -/
def googleAdsListAccountsMarkdownResult (accounts : List AccountRec) : String :=
  listAccountsMarkdown accounts

/-- A 30000-character account name, to exercise oversize responses. -/
def bigAccountName : String :=
  String.mk (List.replicate 30000 'x')

/-- A concrete account record with an oversize name. -/
def bigAccountRec : AccountRec :=
  ⟨"1234567890", bigAccountName, "USD", "ENABLED", "UTC"⟩

/-! ## Asset performance report (`google_ads_get_asset_performance`) -/

/-- One normalized asset record as collected by
`google_ads_get_asset_performance` (the fields the narrative rendering uses). -/
structure AssetRecord where
  performanceLabel : String
  assetType : String
  fieldType : String
  preview : String
  approvalStatus : String
  reviewStatus : String
  assetGroupName : String
  deriving DecidableEq

/-- The fixed priority order of performance-label sections. -/
def labelPriority : List String :=
  ["BEST", "GOOD", "LOW", "LEARNING", "PENDING", "UNKNOWN"]

/-- Embedding of `by_label[label]`: the dict groups rows in arrival order, so
the group for a label is the arrival-order sublist with that label. -/
def assetsWithLabel (assets : List AssetRecord) (label : String) : List AssetRecord :=
  assets.filter (fun a => a.performanceLabel == label)

/-- Embedding of the section loop: iterate `labelPriority`, skip labels with
no rows, and render at most 20 items per section (`by_label[label][:20]`). -/
def assetSections (assets : List AssetRecord) : List (String × List AssetRecord) :=
  labelPriority.filterMap (fun label =>
    let g := assetsWithLabel assets label
    if g.isEmpty then none else some (label, g.take 20))

/-- The icon prefixed to each performance-label section header. -/
def labelIcon (label : String) : String :=
  if label == "BEST" then "🏆"
  else if label == "GOOD" then "✅"
  else if label == "LOW" then "⚠️"
  else if label == "LEARNING" then "🔄"
  else if label == "PENDING" then "⏳"
  else if label == "UNKNOWN" then "❓"
  else ""

/-- The icon prefixed to an approval status. -/
def approvalIcon (st : String) : String :=
  if st == "APPROVED" then "✅"
  else if st == "DISAPPROVED" then "❌"
  else if st == "LIMITED" then "⚠️"
  else if st == "UNDER_REVIEW" then "🔍"
  else "❓"

/-- The lines rendered for one individually-rendered asset. -/
def assetItemLines (a : AssetRecord) : List String :=
  ["### " ++ a.assetType ++ " - " ++ a.fieldType,
   "**Content**: " ++ a.preview,
   "**Approval**: " ++ approvalIcon a.approvalStatus ++ " " ++ a.approvalStatus,
   "**Review Status**: " ++ a.reviewStatus,
   "**Asset Group**: " ++ a.assetGroupName,
   ""]

/-- The lines rendered for one performance-label section. -/
def assetSectionLines (sec : String × List AssetRecord) : List String :=
  ("## " ++ labelIcon sec.fst ++ " " ++ sec.fst ++ " Performance") :: "" ::
    sec.snd.flatMap assetItemLines

/-- The performance-summary block (one count line per non-empty label,
in priority order). -/
def assetSummaryLines (assets : List AssetRecord) : List String :=
  ("## Performance Summary" ::
    labelPriority.filterMap (fun label =>
      let g := assetsWithLabel assets label
      if g.isEmpty then none
      else some ("- **" ++ label ++ "**: " ++ toString g.length ++ " asset(s)")))
  ++ [""]

/-- The full markdown report of `google_ads_get_asset_performance`. -/
def assetReportMarkdown (campaignId campaignName : String)
    (assets : List AssetRecord) : String :=
  String.intercalate "\n"
    ((["# Asset Performance Report", "",
       "**Campaign**: " ++ campaignName ++ " (" ++ campaignId ++ ")",
       "**Found**: " ++ toString assets.length ++ " asset(s)", ""]
      ++ assetSummaryLines assets)
     ++ (assetSections assets).flatMap assetSectionLines)

/-- The success result of the markdown branch of
`google_ads_get_asset_performance`: the report passes through the guard. -/
def googleAdsGetAssetPerformanceMarkdown (campaignId campaignName : String)
    (assets : List AssetRecord) : String :=
  checkAndTruncate CHARACTER_LIMIT (assetReportMarkdown campaignId campaignName assets)

/-! ## Error handling (`_handle_google_ads_error` and the tool boundary) -/

/-- Whether the first character list is a prefix of the second. -/
def charsPrefixOf : List Char → List Char → Bool
  | [], _ => true
  | _ :: _, [] => false
  | a :: as, b :: bs => a == b && charsPrefixOf as bs

/-- Whether the first character list occurs contiguously in the second. -/
def charsInfixOf : List Char → List Char → Bool
  | needle, [] => needle.isEmpty
  | needle, c :: rest => charsPrefixOf needle (c :: rest) || charsInfixOf needle rest

/-- Embedding of Python `needle in hay` on strings. -/
def pyContains (hay needle : String) : Bool :=
  charsInfixOf needle.data hay.data

/-- The exceptions distinguished by `_handle_google_ads_error`: a
`GoogleAdsException` (with its `str(error)` text and the list of individual
failure messages), a `ValueError`, or any other exception (with its type name
and message). -/
inductive PyExc where
  | googleAds (errorStr : String) (failureMessages : List String)
  | valueError (msg : String)
  | other (typeName : String) (msg : String)
  deriving DecidableEq

/-- The fixed advisory for authentication failures. -/
def authenticationAdvisory : String :=
  "Error: Authentication failed. Please verify:\n- GOOGLE_ADS_DEVELOPER_TOKEN is valid\n- GOOGLE_ADS_CLIENT_ID is correct\n- GOOGLE_ADS_REFRESH_TOKEN is current\nRun the OAuth flow again if needed."

/-- The fixed advisory for authorization failures. -/
def authorizationAdvisory : String :=
  "Error: Authorization failed. You don't have access to this customer account. Please verify the customer ID and ensure your account has proper permissions."

/-- The fixed advisory for rate-limit / resource-exhausted failures. -/
def rateLimitAdvisory : String :=
  "Error: API rate limit exceeded. Please wait a few moments before making more requests."

/-- The fixed advisory for invalid-customer-id failures. -/
def invalidCustomerIdAdvisory : String :=
  "Error: Invalid customer ID. Use 10-digit format without dashes (e.g., '1234567890')."

/-- The fixed advisory for not-found failures. -/
def notFoundAdvisory : String :=
  "Error: Resource not found. Please verify the ID is correct and the resource exists."

/-- The fixed advisory for budget-configuration failures. -/
def budgetAdvisory : String :=
  "Error: Budget configuration issue. Ensure budget is at least $1.00 (1000000 micros)."

/-- Embedding of `_handle_google_ads_error`: classify a `GoogleAdsException`
by matching known code substrings in its text (in source order), otherwise
concatenate every individual failure message; a `ValueError` keeps its
message; any other exception is surfaced with its type name and message. -/
def handleGoogleAdsError (e : PyExc) : String :=
  match e with
  | .googleAds errStr msgs =>
    if pyContains errStr "AUTHENTICATION_ERROR" then authenticationAdvisory
    else if pyContains errStr "AUTHORIZATION_ERROR" then authorizationAdvisory
    else if pyContains errStr "RATE_EXCEEDED" || pyContains errStr "RESOURCE_EXHAUSTED" then
      rateLimitAdvisory
    else if pyContains errStr "INVALID_CUSTOMER_ID" then invalidCustomerIdAdvisory
    else if pyContains errStr "NOT_FOUND" || pyContains errStr "RESOURCE_NOT_FOUND" then
      notFoundAdvisory
    else if pyContains errStr "BUDGET_ERROR" then budgetAdvisory
    else
      "Error from Google Ads API:\n" ++
        String.intercalate "\n" (msgs.map (fun m => "- " ++ m))
  | .valueError m => "Error: " ++ m
  | .other ty m => "Error: Unexpected error occurred - " ++ ty ++ ": " ++ m

/-- Embedding of every tool's outer `try/except` boundary: a successful body
returns its string; any raised exception is converted by
`_handle_google_ads_error` and returned as the call's textual result. -/
def runToolBoundary (body : Except PyExc String) : String :=
  match body with
  | .ok s => s
  | .error e => handleGoogleAdsError e

/-! ## Derived ratios of `google_ads_get_campaign_insights` -/

/-- The aggregated totals over all result rows (Python ints and floats,
embedded as rationals). -/
structure InsightTotals where
  impressions : ℚ
  clicks : ℚ
  costMicros : ℚ
  conversions : ℚ
  conversionsValue : ℚ

/-- `ctr = clicks / impressions * 100 if impressions > 0 else 0`. -/
def ctrOf (t : InsightTotals) : ℚ :=
  if t.impressions > 0 then t.clicks / t.impressions * 100 else 0

/-- `avg_cpc = cost_micros / clicks if clicks > 0 else 0`. -/
def avgCpcOf (t : InsightTotals) : ℚ :=
  if t.clicks > 0 then t.costMicros / t.clicks else 0

/-- `conversion_rate = conversions / clicks * 100 if clicks > 0 else 0`. -/
def conversionRateOf (t : InsightTotals) : ℚ :=
  if t.clicks > 0 then t.conversions / t.clicks * 100 else 0

/-- `cost_per_conversion = cost_micros / conversions if conversions > 0 else 0`. -/
def costPerConversionOf (t : InsightTotals) : ℚ :=
  if t.conversions > 0 then t.costMicros / t.conversions else 0

/-- `roas = conversions_value / (cost_micros / 1_000_000) if cost_micros > 0 else 0`. -/
def roasOf (t : InsightTotals) : ℚ :=
  if t.costMicros > 0 then t.conversionsValue / (t.costMicros / 1000000) else 0

/-! ## Money formatting (`_format_money_micros`) and micros aggregation -/

/-- Round `n / d` (with `d > 0`) to the nearest integer, ties to even:
`f` is the floor quotient and `r` the nonnegative remainder. -/
def roundHalfEvenDiv (n d : ℤ) : ℤ :=
  let f := n.fdiv d
  let r := n.fmod d
  if 2 * r < d then f
  else if 2 * r > d then f + 1
  else if f % 2 = 0 then f else f + 1

/-- Fuel-driven `⌊log2 n⌋` (the fuel only bounds the number of halvings). -/
def natLog2Aux : Nat → Nat → Nat
  | 0, _ => 0
  | fuel + 1, n => if n ≥ 2 then natLog2Aux fuel (n / 2) + 1 else 0

/-- `⌊log2 n⌋` for `n ≥ 1`. -/
def natLog2 (n : Nat) : Nat := natLog2Aux n n

/-- Whether `a / b ≥ 2 ^ k` (for `a b > 0`), on integers. -/
def ratGePow2 (a b : Nat) (k : ℤ) : Bool :=
  if 0 ≤ k then a ≥ b * 2 ^ k.toNat
  else a * 2 ^ (-k).toNat ≥ b

/-- The cent amount displayed by Python `f"{micros/1_000_000:,.2f}"`:
`micros / 1_000_000` is first rounded to the nearest binary64 value (53-bit
significand `m` and exponent `k`, ties to even; money values lie in the
normal, non-overflowing range), and the exact value of that binary64 is then
rounded half-to-even to 2 decimal places, which is how CPython formats a
float.  All computed on integers. -/
def floatCentsOfMicros (micros : ℤ) : ℤ :=
  if micros = 0 then 0
  else
    let a := micros.natAbs
    let b : Nat := 1000000
    let g : ℤ := (natLog2 a : ℤ) - (natLog2 b : ℤ)
    let k : ℤ := if ratGePow2 a b g then g else g - 1
    let s : ℤ := 52 - k
    let m : ℤ :=
      if 0 ≤ s then roundHalfEvenDiv (a * 2 ^ s.toNat) b
      else roundHalfEvenDiv a (b * 2 ^ (-s).toNat)
    let e : ℤ := k - 52
    let cents : ℤ :=
      if 0 ≤ e then m * 100 * 2 ^ e.toNat
      else roundHalfEvenDiv (m * 100) (2 ^ (-e).toNat)
    if micros < 0 then -cents else cents

/-- Render a natural number below 100 as exactly two digits. -/
def padTwo (n : Nat) : String :=
  if n < 10 then "0" ++ toString n else toString n

/-- Embedding of `_format_money_micros`: divide micros by 1,000,000 (a Python
float division) and format with a thousands separator and two decimals
(`f"{currency} {amount:,.2f}"`). -/
def formatMoneyMicros (micros : ℤ) (currencyCode : String) : String :=
  let cents := floatCentsOfMicros micros
  let sign := if cents < 0 then "-" else ""
  currencyCode ++ " " ++
    (sign ++ (commaGroup (cents.natAbs / 100) ++ ("." ++ padTwo (cents.natAbs % 100))))

/-- Embedding of the insights loop `total_metrics["cost_micros"] += metrics.cost_micros`:
cost is accumulated as integer micros. -/
def aggregateCostMicros (rows : List ℤ) : ℤ :=
  rows.foldl (fun acc m => acc + m) 0

/-- The displayed cost of the insights report: formatting happens only after
the integer-micros aggregation. -/
def insightsCostDisplay (rows : List ℤ) : String :=
  formatMoneyMicros (aggregateCostMicros rows) "USD"

/-- Embedding of the insights loop
`total_metrics["conversions_value"] += metrics.conversions_value`: the
conversion value is a float in MAJOR currency units, and it is aggregated in
that representation (embedded as rationals). -/
def aggregateConversionsValue (rows : List ℚ) : ℚ :=
  rows.foldl (fun acc v => acc + v) 0

/-- Embedding of Python `int(...)`: truncation toward zero. -/
def pyInt (q : ℚ) : ℤ :=
  if q < 0 then -⌊-q⌋ else ⌊q⌋

/-- The displayed conversion value of the insights report (line
`_format_money_micros(int(m['conversions_value'] * 1_000_000))`): the
major-unit total is converted to micros by truncation only at display time. -/
def conversionsValueDisplay (rows : List ℚ) : String :=
  formatMoneyMicros (pyInt (aggregateConversionsValue rows * 1000000)) "USD"

/-! ## Pagination of `google_ads_list_campaigns` -/

/-- One campaign row (identity only; the pagination logic never inspects
fields). -/
structure CampaignRow where
  id : String
  deriving DecidableEq

/-- Embedding of `if params.offset > 0: results = results[params.offset:]`,
applied AFTER the query already capped the row count at `LIMIT {limit}`. -/
def applyOffset (results : List CampaignRow) (offset : Nat) : List CampaignRow :=
  if offset > 0 then results.drop offset else results

/-- The pagination indicators of `google_ads_list_campaigns`. -/
structure PaginationOut where
  count : Nat
  hasMore : Bool
  nextOffset : Option Nat
  deriving DecidableEq

/-- Embedding of the response assembly: the campaign list is built 1:1 from
the post-offset rows, `has_more = (len(results) == limit)` and
`next_offset = offset + limit if has_more else None`, both computed from the
post-offset row count. -/
def listCampaignsPagination (results : List CampaignRow) (limit offset : Nat) :
    PaginationOut :=
  let postOffset := applyOffset results offset
  { count := postOffset.length,
    hasMore := postOffset.length == limit,
    nextOffset := if postOffset.length == limit then some (offset + limit) else none }

/-! ## Create-operation payload statuses -/

/-- Entity status values used in create payloads. -/
inductive EntityStatus where
  | ENABLED
  | PAUSED
  | REMOVED
  deriving DecidableEq

/-- The slice of the campaign create payload the safety policy concerns:
`campaign.status = client.enums.CampaignStatusEnum.PAUSED`. -/
structure CampaignCreatePayload where
  name : String
  status : EntityStatus
  deriving DecidableEq

/-- Payload built by `google_ads_create_campaign`. -/
def buildCampaignCreate (campaignName : String) : CampaignCreatePayload :=
  ⟨campaignName, .PAUSED⟩

/-- The slice of the responsive-search-ad create payload:
`ad_group_ad.status = client.enums.AdGroupAdStatusEnum.PAUSED`. -/
structure AdGroupAdCreatePayload where
  adGroupId : String
  status : EntityStatus
  deriving DecidableEq

/-- Payload built by `google_ads_create_responsive_search_ad`. -/
def buildResponsiveSearchAdCreate (adGroupId : String) : AdGroupAdCreatePayload :=
  ⟨adGroupId, .PAUSED⟩

/-- The default of `CreateAdGroupInput.status` (`default=AdGroupStatus.PAUSED`). -/
def adGroupCreateDefaultStatus : EntityStatus := .PAUSED

/-- The slice of one keyword criterion create payload built by
`google_ads_add_keywords`. -/
structure KeywordCriterionCreatePayload where
  adGroup : String
  status : EntityStatus
  text : String
  matchType : String
  deriving DecidableEq

/-- Payloads built by `google_ads_add_keywords`: one per keyword, each with
`criterion.status = client.enums.AdGroupCriterionStatusEnum.ENABLED`. -/
def buildKeywordOperations (adGroup : String) (matchType : String)
    (keywords : List String) : List KeywordCriterionCreatePayload :=
  keywords.map (fun kw => ⟨adGroup, .ENABLED, kw, matchType⟩)

/-! ## Composite asset-group update (`google_ads_update_asset_group_assets`) -/

/-- The remote mutation sub-calls the composite operation can issue. -/
inductive RemoteStep where
  | addAssets
  | removeAssets
  deriving DecidableEq

/-- The parsed JSON data of a successful `google_ads_create_text_assets` call,
as read back by the composite operation. -/
structure AddAssetsData where
  totalCreated : Nat
  headlines : List String
  descriptions : List String
  deriving DecidableEq

/-- The success text of `google_ads_remove_asset_from_group`. -/
def removeAssetsSuccessText (requested removedCount : Nat) : String :=
  "✅ **Removed " ++ toString requested ++
    " asset(s) from asset group successfully!**\n\n**Removed Assets**: " ++
    toString removedCount ++
    "\n\nThe assets have been unlinked from the asset group. The campaign will stop using them immediately.\n\n**Note**: The assets themselves remain in your account library and can be reused in other campaigns."

/-- Embedding of `google_ads_remove_asset_from_group`: its own boundary
catches any raised exception, so it returns either the success text or the
formatted error string. -/
def removeAssetFromGroupTool (requested : Nat) (outcome : Except PyExc Nat) : String :=
  match outcome with
  | .ok removedCount => removeAssetsSuccessText requested removedCount
  | .error e => handleGoogleAdsError e

/-- The markdown response assembled by the composite operation from its
collected `("add", data)` / `("remove", string)` result entries. -/
def updateAssetsMarkdown (assetGroupId : String) (addEntry : Option AddAssetsData)
    (removeEntry : Option String) : String :=
  String.intercalate "\n"
    (["✅ **Asset group updated successfully!**\n",
      "**Asset Group ID**: " ++ assetGroupId ++ "\n"]
     ++ (match addEntry with
         | some d =>
           ["### Added Assets (" ++ toString d.totalCreated ++ ")"]
           ++ (if d.headlines.isEmpty then [] else
                ["**Headlines**: " ++ String.intercalate ", " d.headlines])
           ++ (if d.descriptions.isEmpty then [] else
                ["**Descriptions**: " ++ String.intercalate ", " d.descriptions])
           ++ [""]
         | none => [])
     ++ (match removeEntry with
         | some data => ["### Removed Assets", data, ""]
         | none => [])
     ++ ["**Next Steps**:",
         "1. Verify new assets are approved with `google_ads_get_asset_performance`",
         "2. Monitor campaign performance for impact"])

/-- Embedding of `google_ads_update_asset_group_assets` with markdown output.
The result pairs the returned string with the ordered trace of remote
mutation sub-calls actually issued.  The add path runs first; its result
string is parsed as JSON, so if the add sub-tool caught an exception and
returned an error string, `json.loads` raises a `json.JSONDecodeError` — a
`ValueError` subclass, so the composite's handler takes its ValueError branch
and returns `"Error: " + str(error)` — without ever attempting the remove
path.  The remove path runs second; its own boundary catches failures and
returns an error STRING, which the composite embeds in a success-framed
response. -/
def updateAssetGroupAssetsTool (assetGroupId : String) (hasAdd hasRemove : Bool)
    (addOutcome : Except PyExc AddAssetsData) (removeRequested : Nat)
    (removeOutcome : Except PyExc Nat) : String × List RemoteStep :=
  if !hasAdd && !hasRemove then
    ("❌ Error: You must specify at least one operation (add or remove assets).", [])
  else if hasAdd then
    match addOutcome with
    | .error _ =>
      (handleGoogleAdsError
        (.valueError "Expecting value: line 1 column 1 (char 0)"),
       [.addAssets])
    | .ok d =>
      if hasRemove then
        (updateAssetsMarkdown assetGroupId (some d)
          (some (removeAssetFromGroupTool removeRequested removeOutcome)),
         [.addAssets, .removeAssets])
      else
        (updateAssetsMarkdown assetGroupId (some d) none, [.addAssets])
  else
    (updateAssetsMarkdown assetGroupId none
      (some (removeAssetFromGroupTool removeRequested removeOutcome)),
     [.removeAssets])

/-- Whether `p` is a prefix of `s`. -/
def strStartsWith (s p : String) : Bool :=
  charsPrefixOf p.data s.data

/-! ## Shared helper lemmas -/

theorem strLength_mk (l : List Char) : (String.mk l).length = l.length := rfl

theorem strLength_pyTake (s : String) (n : Nat) (h : n ≤ s.length) :
    (pyTake s n).length = n := by
  show (s.data.take n).length = n
  rw [List.length_take]
  exact Nat.min_eq_left h

/-- The guard's output never exceeds the limit plus the warning computed from
the input's length. -/
theorem guard_length_le (L : Nat) (s : String) :
    (checkAndTruncate L s).length ≤ L + (truncWarning s.length L).length := by
  rw [checkAndTruncate]
  by_cases h : s.length ≤ L
  · rw [if_pos h]
    omega
  · rw [if_neg h]
    rw [String.length_append, strLength_pyTake s L (by omega)]

/-- The labels of the rendered sections are exactly the priority labels whose
group is non-empty, in priority order. -/
theorem sections_map_fst (l : List String) (f : String → List AssetRecord) :
    (l.filterMap (fun label =>
        let g := f label
        if g.isEmpty then none else some (label, g.take 20))).map Prod.fst =
      l.filter (fun label => !(f label).isEmpty) := by
  induction l with
  | nil => rfl
  | cons a t ih =>
    simp only [List.isEmpty_iff] at ih ⊢
    by_cases h : f a = [] <;>
      simp [List.filterMap_cons, List.filter_cons, h, ih]

/-! ## Claim theorems -/

/-- C1, counterexample: the dashed input `"123-456-7890"` is NOT accepted by
the operation-level parameter validation (the pydantic `customer_id` field
requires the raw length to be exactly 10, and the dashed form has length 12),
even though the helper `_validate_customer_id` would strip the dashes and
accept it. -/
theorem C1_counterexample :
    customerIdFieldAccepts "123-456-7890" = false ∧
    operationValidateCustomerId "123-456-7890" =
      .error "String should have 10 characters" ∧
    validateCustomerId "123-456-7890" = .ok "1234567890" := by
  refine ⟨by decide, ?_, by rfl⟩
  have h : customerIdFieldAccepts "123-456-7890" = false := by decide
  simp [operationValidateCustomerId, h]

/-- C1 (amended): `_validate_customer_id` strips dashes and then accepts iff
the stripped form is exactly 10 digits; when the stripped length differs from
10 it fails with an error naming the actual length, and when a non-digit
character remains it fails with an error.  The dashed input `"123-456-7890"`
is normalized to `"1234567890"` by that helper, but it is rejected by the
operation-level (schema) parameter validation, whose exact-length-10 field
constraint runs before the helper, so dashed 12-character ids never reach a
tool body. -/
theorem C1_validation_amended :
    (∀ s : String,
      (validateCustomerId s = .ok (stripDashes s) ↔
        ((stripDashes s).length = 10 ∧ (stripDashes s).data.all Char.isDigit)) ∧
      ((stripDashes s).length ≠ 10 →
        validateCustomerId s =
          .error ("Customer ID must be 10 digits, got " ++
            toString (stripDashes s).length)) ∧
      ((stripDashes s).length = 10 → (stripDashes s).data.all Char.isDigit →
        validateCustomerId s = .ok (stripDashes s))) ∧
    validateCustomerId "123-456-7890" = .ok "1234567890" ∧
    customerIdFieldAccepts "123-456-7890" = false := by
  refine ⟨fun s => ⟨?_, ?_, ?_⟩, by rfl, by decide⟩
  · constructor
    · intro h
      by_cases hlen : (stripDashes s).length = 10
      · refine ⟨hlen, ?_⟩
        by_cases hdig : (stripDashes s).data.all Char.isDigit
        · exact hdig
        · simp [validateCustomerId, hlen, hdig] at h
      · simp [validateCustomerId, hlen] at h
    · rintro ⟨hlen, hdig⟩
      simp [validateCustomerId, hlen, hdig]
  · intro hlen
    simp [validateCustomerId, hlen]
  · intro hlen hdig
    simp [validateCustomerId, hlen, hdig]

/-- C1 witness: the amended theorem applied at a concrete dashed input. -/
theorem C1_witness :
    (stripDashes "123-456-7890").length = 10 ∧
    validateCustomerId "123-456-7890" = .ok (stripDashes "123-456-7890") := by
  have h := (C1_validation_amended.1 "123-456-7890").2.2 (by decide) (by decide)
  exact ⟨by decide, h⟩

/-- C2: the Response Guard returns any string of length at most 25000
unchanged; a longer string is cut to exactly its first 25000 characters and a
warning is appended whose text contains the original length and the bound, so
the result's length is exactly the bound plus the warning's length. -/
theorem C2_response_guard_truncation (s : String) :
    (s.length ≤ CHARACTER_LIMIT → checkAndTruncate CHARACTER_LIMIT s = s) ∧
    (CHARACTER_LIMIT < s.length →
      checkAndTruncate CHARACTER_LIMIT s =
        pyTake s CHARACTER_LIMIT ++ truncWarning s.length CHARACTER_LIMIT ∧
      (checkAndTruncate CHARACTER_LIMIT s).length =
        CHARACTER_LIMIT + (truncWarning s.length CHARACTER_LIMIT).length ∧
      isSubstrOf (commaGroup s.length) (truncWarning s.length CHARACTER_LIMIT) ∧
      isSubstrOf (commaGroup CHARACTER_LIMIT)
        (truncWarning s.length CHARACTER_LIMIT)) := by
  constructor
  · intro h
    simp [checkAndTruncate, h]
  · intro h
    have hnot : ¬ s.length ≤ CHARACTER_LIMIT := by omega
    refine ⟨by simp [checkAndTruncate, hnot], ?_, ?_, ?_⟩
    · rw [checkAndTruncate]
      simp only [hnot, if_false]
      rw [String.length_append, strLength_pyTake s CHARACTER_LIMIT (by omega)]
    · exact ⟨"\n\n⚠️ **Response truncated** from ",
        " to " ++ (commaGroup CHARACTER_LIMIT ++
          " characters. Use filters, pagination, or reduce date range to see more data."),
        String.append_assoc _ _ _⟩
    · exact ⟨("\n\n⚠️ **Response truncated** from " ++ commaGroup s.length) ++ " to ",
        " characters. Use filters, pagination, or reduce date range to see more data.",
        (String.append_assoc _ _ _).symm⟩

/-- C2 witness: the guard applied to a short string and to a concrete
25001-character string. -/
theorem C2_witness :
    checkAndTruncate CHARACTER_LIMIT "abc" = "abc" ∧
    (checkAndTruncate CHARACTER_LIMIT bigString25001).length =
      CHARACTER_LIMIT + (truncWarning bigString25001.length CHARACTER_LIMIT).length := by
  refine ⟨(C2_response_guard_truncation "abc").1 (by decide), ?_⟩
  have h : CHARACTER_LIMIT < bigString25001.length := by
    show CHARACTER_LIMIT < (List.replicate 25001 'a').length
    rw [List.length_replicate]
    norm_num [CHARACTER_LIMIT]
  exact ((C2_response_guard_truncation bigString25001).2 h).2.1

set_option maxRecDepth 10000 in
/-- C3, counterexample: the markdown branch of `google_ads_list_accounts`
returns its rendered string without passing it through the Response Guard, so
for a concrete account with a 30000-character name the success response is
longer than the bound plus the warning's length, and differs from what the
guard would have returned. -/
theorem C3_counterexample :
    CHARACTER_LIMIT +
        (truncWarning (googleAdsListAccountsMarkdownResult [bigAccountRec]).length
          CHARACTER_LIMIT).length <
      (googleAdsListAccountsMarkdownResult [bigAccountRec]).length ∧
    googleAdsListAccountsMarkdownResult [bigAccountRec] ≠
      checkAndTruncate CHARACTER_LIMIT (googleAdsListAccountsMarkdownResult [bigAccountRec]) := by
  have key : ∀ name : String,
      (listAccountsMarkdown [⟨"1234567890", name, "USD", "ENABLED", "UTC"⟩]).length
        = 137 + name.length := by
    intro name
    have h1 : (toString (1 : Nat)) = "1" := rfl
    simp [listAccountsMarkdown, accountLines, String.intercalate, String.intercalate.go,
          String.length_append, h1]
    rw [show ("# Google Ads Accounts\n\nFound **1** accessible account(s)\n\n" : String).length = 58 from rfl,
        show ("## " : String).length = 3 from rfl,
        show (" (" : String).length = 2 from rfl,
        show ("1234567890" : String).length = 10 from rfl,
        show (")" : String).length = 1 from rfl,
        show ("\n" : String).length = 1 from rfl,
        show ("- **Currency**: USD" : String).length = 19 from rfl,
        show ("- **Status**: ENABLED" : String).length = 21 from rfl,
        show ("- **Timezone**: UTC" : String).length = 19 from rfl]
    omega
  have hbig : bigAccountName.length = 30000 := by
    show (List.replicate 30000 'x').length = 30000
    rw [List.length_replicate]
  have hout : (googleAdsListAccountsMarkdownResult [bigAccountRec]).length = 30137 := by
    show (listAccountsMarkdown [⟨"1234567890", bigAccountName, "USD", "ENABLED", "UTC"⟩]).length = 30137
    rw [key bigAccountName, hbig]
  have hw : (truncWarning 30137 CHARACTER_LIMIT).length = 125 := by decide
  have h1 : CHARACTER_LIMIT +
      (truncWarning (googleAdsListAccountsMarkdownResult [bigAccountRec]).length
        CHARACTER_LIMIT).length <
      (googleAdsListAccountsMarkdownResult [bigAccountRec]).length := by
    rw [hout, hw]
    norm_num [CHARACTER_LIMIT]
  refine ⟨h1, fun heq => ?_⟩
  have h2 := guard_length_le CHARACTER_LIMIT (googleAdsListAccountsMarkdownResult [bigAccountRec])
  rw [← heq] at h2
  omega

/-- C3 (amended): responses are not uniformly guarded.  Operations such as
`google_ads_get_asset_performance` do pass their rendered markdown through the
Response Guard, so their success responses never exceed the bound plus the
warning's length; but `google_ads_list_accounts` returns its rendered string
directly, with no guard, so its success responses can exceed the bound. -/
theorem C3_guard_amended :
    (∀ (cid cname : String) (assets : List AssetRecord),
      (googleAdsGetAssetPerformanceMarkdown cid cname assets).length ≤
        CHARACTER_LIMIT +
          (truncWarning (assetReportMarkdown cid cname assets).length
            CHARACTER_LIMIT).length) ∧
    (∀ accounts : List AccountRec,
      googleAdsListAccountsMarkdownResult accounts = listAccountsMarkdown accounts) :=
  ⟨fun cid cname assets =>
    guard_length_le CHARACTER_LIMIT (assetReportMarkdown cid cname assets),
   fun _ => rfl⟩

/-- C8: in narrative mode the asset-performance report renders
performance-label groups in the fixed priority order BEST, GOOD, LOW,
LEARNING, PENDING, UNKNOWN — the section labels are exactly the non-empty
priority labels in that order, regardless of arrival order — and each section
individually renders the first `min 20 (group size)` records of its group. -/
theorem C8_narrative_grouping :
    (∀ assets : List AssetRecord,
      (assetSections assets).map Prod.fst =
        labelPriority.filter (fun l => !(assetsWithLabel assets l).isEmpty)) ∧
    (∀ (assets : List AssetRecord) (label : String),
      label ∈ labelPriority → assetsWithLabel assets label ≠ [] →
      (label, (assetsWithLabel assets label).take 20) ∈ assetSections assets ∧
      ((assetsWithLabel assets label).take 20).length =
        min 20 (assetsWithLabel assets label).length) := by
  constructor
  · intro assets
    exact sections_map_fst labelPriority (assetsWithLabel assets)
  · intro assets label hmem hne
    constructor
    · refine List.mem_filterMap.mpr ⟨label, hmem, ?_⟩
      simp [List.isEmpty_iff, hne]
    · rw [List.length_take]

/-- C8 witness: with arrival order LOW, BEST, BEST the report renders a BEST
section (2 items) before the LOW section (1 item); and with 25 records in one
group, exactly 20 items are individually rendered. -/
theorem C8_witness :
    ("BEST", [⟨"BEST", "TEXT", "HEADLINE", "h1", "APPROVED", "REVIEWED", "g"⟩,
              ⟨"BEST", "TEXT", "HEADLINE", "h2", "APPROVED", "REVIEWED", "g"⟩]) ∈
      assetSections
        [⟨"LOW", "TEXT", "HEADLINE", "l1", "APPROVED", "REVIEWED", "g"⟩,
         ⟨"BEST", "TEXT", "HEADLINE", "h1", "APPROVED", "REVIEWED", "g"⟩,
         ⟨"BEST", "TEXT", "HEADLINE", "h2", "APPROVED", "REVIEWED", "g"⟩] ∧
    (assetSections
        [⟨"LOW", "TEXT", "HEADLINE", "l1", "APPROVED", "REVIEWED", "g"⟩,
         ⟨"BEST", "TEXT", "HEADLINE", "h1", "APPROVED", "REVIEWED", "g"⟩,
         ⟨"BEST", "TEXT", "HEADLINE", "h2", "APPROVED", "REVIEWED", "g"⟩]).map Prod.fst =
      ["BEST", "LOW"] ∧
    ((assetsWithLabel
        (List.replicate 25 ⟨"BEST", "TEXT", "HEADLINE", "h", "APPROVED", "REVIEWED", "g"⟩)
        "BEST").take 20).length = 20 := by
  refine ⟨?_, ?_, ?_⟩
  · have h := (C8_narrative_grouping.2
      [⟨"LOW", "TEXT", "HEADLINE", "l1", "APPROVED", "REVIEWED", "g"⟩,
       ⟨"BEST", "TEXT", "HEADLINE", "h1", "APPROVED", "REVIEWED", "g"⟩,
       ⟨"BEST", "TEXT", "HEADLINE", "h2", "APPROVED", "REVIEWED", "g"⟩]
      "BEST" (by decide) (by decide)).1
    exact h
  · rw [C8_narrative_grouping.1]
    decide
  · have h := (C8_narrative_grouping.2
      (List.replicate 25 ⟨"BEST", "TEXT", "HEADLINE", "h", "APPROVED", "REVIEWED", "g"⟩)
      "BEST" (by decide) (by decide)).2
    rw [h]
    decide

/-- C4: the tool boundary catches every exception and returns a formatted
textual result: a remote exception whose text contains a known failure-code
substring (taking the source's precedence order into account) yields the
corresponding fixed advisory; a remote exception matching no known substring
yields the concatenation of every individual failure message; a `ValueError`
keeps its message; any other exception yields its type name and message. -/
theorem C4_error_boundary :
    (∀ e : PyExc, runToolBoundary (.error e) = handleGoogleAdsError e) ∧
    (∀ s : String, runToolBoundary (.ok s) = s) ∧
    (∀ errStr msgs, pyContains errStr "AUTHENTICATION_ERROR" = true →
      handleGoogleAdsError (.googleAds errStr msgs) = authenticationAdvisory) ∧
    (∀ errStr msgs, pyContains errStr "AUTHENTICATION_ERROR" = false →
      pyContains errStr "AUTHORIZATION_ERROR" = true →
      handleGoogleAdsError (.googleAds errStr msgs) = authorizationAdvisory) ∧
    (∀ errStr msgs, pyContains errStr "AUTHENTICATION_ERROR" = false →
      pyContains errStr "AUTHORIZATION_ERROR" = false →
      (pyContains errStr "RATE_EXCEEDED" || pyContains errStr "RESOURCE_EXHAUSTED") = true →
      handleGoogleAdsError (.googleAds errStr msgs) = rateLimitAdvisory) ∧
    (∀ errStr msgs, pyContains errStr "AUTHENTICATION_ERROR" = false →
      pyContains errStr "AUTHORIZATION_ERROR" = false →
      pyContains errStr "RATE_EXCEEDED" = false →
      pyContains errStr "RESOURCE_EXHAUSTED" = false →
      pyContains errStr "INVALID_CUSTOMER_ID" = true →
      handleGoogleAdsError (.googleAds errStr msgs) = invalidCustomerIdAdvisory) ∧
    (∀ errStr msgs, pyContains errStr "AUTHENTICATION_ERROR" = false →
      pyContains errStr "AUTHORIZATION_ERROR" = false →
      pyContains errStr "RATE_EXCEEDED" = false →
      pyContains errStr "RESOURCE_EXHAUSTED" = false →
      pyContains errStr "INVALID_CUSTOMER_ID" = false →
      (pyContains errStr "NOT_FOUND" || pyContains errStr "RESOURCE_NOT_FOUND") = true →
      handleGoogleAdsError (.googleAds errStr msgs) = notFoundAdvisory) ∧
    (∀ errStr msgs, pyContains errStr "AUTHENTICATION_ERROR" = false →
      pyContains errStr "AUTHORIZATION_ERROR" = false →
      pyContains errStr "RATE_EXCEEDED" = false →
      pyContains errStr "RESOURCE_EXHAUSTED" = false →
      pyContains errStr "INVALID_CUSTOMER_ID" = false →
      pyContains errStr "NOT_FOUND" = false →
      pyContains errStr "RESOURCE_NOT_FOUND" = false →
      pyContains errStr "BUDGET_ERROR" = true →
      handleGoogleAdsError (.googleAds errStr msgs) = budgetAdvisory) ∧
    (∀ errStr msgs, pyContains errStr "AUTHENTICATION_ERROR" = false →
      pyContains errStr "AUTHORIZATION_ERROR" = false →
      pyContains errStr "RATE_EXCEEDED" = false →
      pyContains errStr "RESOURCE_EXHAUSTED" = false →
      pyContains errStr "INVALID_CUSTOMER_ID" = false →
      pyContains errStr "NOT_FOUND" = false →
      pyContains errStr "RESOURCE_NOT_FOUND" = false →
      pyContains errStr "BUDGET_ERROR" = false →
      handleGoogleAdsError (.googleAds errStr msgs) =
        "Error from Google Ads API:\n" ++
          String.intercalate "\n" (msgs.map (fun m => "- " ++ m))) ∧
    (∀ m, handleGoogleAdsError (.valueError m) = "Error: " ++ m) ∧
    (∀ ty m, handleGoogleAdsError (.other ty m) =
      "Error: Unexpected error occurred - " ++ ty ++ ": " ++ m) := by
  refine ⟨fun _ => rfl, fun _ => rfl, ?_, ?_, ?_, ?_, ?_, ?_, ?_, fun _ => rfl,
    fun _ _ => rfl⟩
  · intro errStr msgs h1
    simp [handleGoogleAdsError, h1]
  · intro errStr msgs h1 h2
    simp [handleGoogleAdsError, h1, h2]
  · intro errStr msgs h1 h2 h3
    simp [handleGoogleAdsError, h1, h2, h3]
  · intro errStr msgs h1 h2 h3 h4 h5
    simp [handleGoogleAdsError, h1, h2, h3, h4, h5]
  · intro errStr msgs h1 h2 h3 h4 h5 h6
    simp [handleGoogleAdsError, h1, h2, h3, h4, h5, h6]
  · intro errStr msgs h1 h2 h3 h4 h5 h6 h7 h8
    simp [handleGoogleAdsError, h1, h2, h3, h4, h5, h6, h7, h8]
  · intro errStr msgs h1 h2 h3 h4 h5 h6 h7 h8
    simp [handleGoogleAdsError, h1, h2, h3, h4, h5, h6, h7, h8]

/-- C4 witness: the boundary applied to concrete raised exceptions of each
kind. -/
theorem C4_witness :
    runToolBoundary (.error (.googleAds "AUTHENTICATION_ERROR: bad token" ["m1"])) =
      authenticationAdvisory ∧
    runToolBoundary (.error (.googleAds "SOME_UNKNOWN_CODE" ["a", "b"])) =
      "Error from Google Ads API:\n" ++
        String.intercalate "\n" (["a", "b"].map (fun m => "- " ++ m)) ∧
    runToolBoundary (.error (.other "KeyError" "boom")) =
      "Error: Unexpected error occurred - KeyError: boom" := by
  refine ⟨?_, ?_, ?_⟩
  · exact (C4_error_boundary.1 _).trans
      (C4_error_boundary.2.2.1 "AUTHENTICATION_ERROR: bad token" ["m1"] (by decide))
  · exact (C4_error_boundary.1 _).trans
      (C4_error_boundary.2.2.2.2.2.2.2.2.1 "SOME_UNKNOWN_CODE" ["a", "b"]
        (by decide) (by decide) (by decide) (by decide) (by decide) (by decide)
        (by decide) (by decide))
  · exact (C4_error_boundary.1 _).trans
      (C4_error_boundary.2.2.2.2.2.2.2.2.2.2 "KeyError" "boom")

/-- C5: every derived ratio of the insights pipeline (CTR, average CPC,
conversion rate, cost per conversion, ROAS) is exactly 0 when its denominator
is zero, and is the ordinary quotient when its denominator is positive. -/
theorem C5_safe_division (t : InsightTotals) :
    (t.impressions = 0 → ctrOf t = 0) ∧
    (0 < t.impressions → ctrOf t = t.clicks / t.impressions * 100) ∧
    (t.clicks = 0 → avgCpcOf t = 0 ∧ conversionRateOf t = 0) ∧
    (0 < t.clicks → avgCpcOf t = t.costMicros / t.clicks ∧
      conversionRateOf t = t.conversions / t.clicks * 100) ∧
    (t.conversions = 0 → costPerConversionOf t = 0) ∧
    (0 < t.conversions → costPerConversionOf t = t.costMicros / t.conversions) ∧
    (t.costMicros = 0 → roasOf t = 0) ∧
    (0 < t.costMicros → roasOf t = t.conversionsValue / (t.costMicros / 1000000)) := by
  refine ⟨?_, ?_, ?_, ?_, ?_, ?_, ?_, ?_⟩ <;> intro h
  · simp [ctrOf, h]
  · simp [ctrOf, h]
  · constructor <;> simp [avgCpcOf, conversionRateOf, h]
  · constructor <;> simp [avgCpcOf, conversionRateOf, h]
  · simp [costPerConversionOf, h]
  · simp [costPerConversionOf, h]
  · simp [roasOf, h]
  · simp [roasOf, h]

/-- C5 witness: the ratios at all-zero totals and at concrete positive
denominators. -/
theorem C5_witness :
    ctrOf ⟨0, 0, 0, 0, 0⟩ = 0 ∧
    avgCpcOf ⟨0, 0, 0, 0, 0⟩ = 0 ∧
    costPerConversionOf ⟨0, 0, 0, 0, 0⟩ = 0 ∧
    roasOf ⟨0, 0, 0, 0, 0⟩ = 0 ∧
    ctrOf ⟨2, 1, 0, 0, 0⟩ = 50 := by
  refine ⟨(C5_safe_division _).1 rfl,
    ((C5_safe_division _).2.2.1 rfl).1,
    (C5_safe_division _).2.2.2.2.1 rfl,
    (C5_safe_division _).2.2.2.2.2.2.1 rfl, ?_⟩
  have h := (C5_safe_division ⟨2, 1, 0, 0, 0⟩).2.1 (by norm_num)
  rw [h]
  norm_num

/-- C6, counterexample: `google_ads_add_keywords` is a create-type operation
whose payloads set the new keyword criteria to ENABLED, not to a paused or
disabled state, and no contract of that operation documents an enabled
default. -/
theorem C6_counterexample :
    (buildKeywordOperations "789" "BROAD" ["running shoes"]).map
        KeywordCriterionCreatePayload.status = [.ENABLED] ∧
    EntityStatus.ENABLED ≠ EntityStatus.PAUSED := by
  exact ⟨rfl, by decide⟩

/-- C6 (amended): `google_ads_create_campaign` and
`google_ads_create_responsive_search_ad` set the created entity's status to
PAUSED, and `google_ads_create_ad_group` defaults its status parameter to
PAUSED; but `google_ads_add_keywords` sets every created keyword criterion to
ENABLED. -/
theorem C6_create_status_amended :
    (∀ name, (buildCampaignCreate name).status = .PAUSED) ∧
    (∀ g, (buildResponsiveSearchAdCreate g).status = .PAUSED) ∧
    adGroupCreateDefaultStatus = .PAUSED ∧
    (∀ g mt kws, (buildKeywordOperations g mt kws).all
      (fun op => op.status == EntityStatus.ENABLED) = true) := by
  refine ⟨fun _ => rfl, fun _ => rfl, rfl, ?_⟩
  intro g mt kws
  induction kws with
  | nil => rfl
  | cons k t ih =>
    simp [buildKeywordOperations, List.all_cons, ih]

/-- C7, counterexample: with assets to add and to remove, when the add path
succeeds and the remove path fails, the composite issues both remote calls in
order (no rollback of the completed additions), but the returned string is a
success-framed message — it begins with the success banner, does not begin
with an error marker, and merely embeds the remove path's error text — rather
than an error result. -/
theorem C7_counterexample :
    (updateAssetGroupAssetsTool "42" true true (.ok ⟨2, ["h1", "h2"], []⟩) 1
        (.error (.googleAds "UNKNOWN_THING" ["could not remove"]))).snd =
      [.addAssets, .removeAssets] ∧
    strStartsWith
      (updateAssetGroupAssetsTool "42" true true (.ok ⟨2, ["h1", "h2"], []⟩) 1
        (.error (.googleAds "UNKNOWN_THING" ["could not remove"]))).fst
      "✅ **Asset group updated successfully!**" = true ∧
    strStartsWith
      (updateAssetGroupAssetsTool "42" true true (.ok ⟨2, ["h1", "h2"], []⟩) 1
        (.error (.googleAds "UNKNOWN_THING" ["could not remove"]))).fst
      "Error" = false ∧
    pyContains
      (updateAssetGroupAssetsTool "42" true true (.ok ⟨2, ["h1", "h2"], []⟩) 1
        (.error (.googleAds "UNKNOWN_THING" ["could not remove"]))).fst
      (handleGoogleAdsError (.googleAds "UNKNOWN_THING" ["could not remove"])) = true := by
  refine ⟨rfl, ?_, ?_, ?_⟩ <;> decide

/-- C7 (amended): the composite asset-group update executes as two sequential
remote calls, the add path first and the remove path second, not as one
atomic batch; if the add call fails the remove call is never attempted, and
if the add call succeeds and the remove call then fails the completed
additions are not rolled back — but the operation then returns a
success-framed response embedding the remove path's formatted error text.  An
error result is returned only for add-path failures: parsing the add
sub-tool's error string raises a `json.JSONDecodeError`, a `ValueError`
subclass, so the handler's ValueError branch yields
`"Error: Expecting value: line 1 column 1 (char 0)"`. -/
theorem C7_sequential_amended :
    (∀ (gid : String) (d : AddAssetsData) (rReq : Nat) (rOut : Except PyExc Nat),
      (updateAssetGroupAssetsTool gid true true (.ok d) rReq rOut).snd =
        [.addAssets, .removeAssets]) ∧
    (∀ (gid : String) (d : AddAssetsData) (rReq : Nat) (e : PyExc),
      (updateAssetGroupAssetsTool gid true true (.ok d) rReq (.error e)).fst =
        updateAssetsMarkdown gid (some d) (some (handleGoogleAdsError e))) ∧
    (∀ (gid : String) (e : PyExc) (rReq : Nat) (rOut : Except PyExc Nat),
      (updateAssetGroupAssetsTool gid true true (.error e) rReq rOut).snd =
        [.addAssets] ∧
      (updateAssetGroupAssetsTool gid true true (.error e) rReq rOut).fst =
        handleGoogleAdsError
          (.valueError "Expecting value: line 1 column 1 (char 0)")) :=
  ⟨fun _ _ _ _ => rfl, fun _ _ _ _ => rfl, fun _ _ _ _ => ⟨rfl, rfl⟩⟩

/-- C9, counterexample: `conversions_value` is a monetary value (it is
rendered as currency at display time), yet it is aggregated as a number of
MAJOR currency units, not as an integer number of micros: for the remote
value 1/128 (exactly representable as a float) the aggregated total times
1,000,000 is 15625/2, which is no integer, so the carried value is not an
integer micros count; it is converted to micros (by `int(total * 1_000_000)`,
i.e. truncation to 7812) only at display time. -/
theorem C9_counterexample :
    aggregateConversionsValue [(1 : ℚ)/128] = (1 : ℚ)/128 ∧
    (¬ ∃ n : ℤ, aggregateConversionsValue [(1 : ℚ)/128] * 1000000 = (n : ℚ)) ∧
    conversionsValueDisplay [(1 : ℚ)/128] = formatMoneyMicros 7812 "USD" := by
  have hagg : aggregateConversionsValue [(1 : ℚ)/128] = (1 : ℚ)/128 := by
    simp [aggregateConversionsValue]
  have hmul : (1 : ℚ)/128 * 1000000 = 15625/2 := by norm_num
  refine ⟨hagg, ?_, ?_⟩
  · rintro ⟨n, hn⟩
    rw [hagg, hmul] at hn
    have h2 : (15625 : ℚ) = 2 * n := by
      field_simp at hn
      linarith
    have h3 : (15625 : ℤ) = 2 * n := by exact_mod_cast h2
    omega
  · rw [conversionsValueDisplay, hagg, hmul]
    have htrunc : pyInt ((15625 : ℚ)/2) = 7812 := by
      rw [pyInt, if_neg (by norm_num), Int.floor_eq_iff]
      constructor <;> norm_num
    rw [htrunc]

/-- C9 (amended): the micros-denominated monetary fields are carried as
integer micros through aggregation (the insights cost total is the integer
sum of the rows' micros) and converted to a decimal display string only at
presentation time, and 50000000 micros renders as "50.00" in the major unit
(while 15000 micros renders as "0.01", matching Python's binary-float
formatting rather than exact decimal rounding); but `conversions_value` —
also monetary and displayed as
currency — is aggregated as a float in MAJOR currency units and converted to
micros, by truncation, only at display time, so not every monetary value is
carried as integer micros. -/
theorem C9_money_amended :
    (∀ rows : List ℤ, aggregateCostMicros rows = rows.sum) ∧
    (∀ rows : List ℤ, insightsCostDisplay rows = formatMoneyMicros rows.sum "USD") ∧
    formatMoneyMicros 50000000 "USD" = "USD 50.00" ∧
    isSubstrOf "50.00" (formatMoneyMicros 50000000 "USD") ∧
    formatMoneyMicros 15000 "USD" = "USD 0.01" ∧
    (∀ rows : List ℚ, conversionsValueDisplay rows =
      formatMoneyMicros (pyInt (aggregateConversionsValue rows * 1000000)) "USD") := by
  have hsum : ∀ (rows : List ℤ) (a : ℤ),
      rows.foldl (fun acc m => acc + m) a = a + rows.sum := by
    intro rows
    induction rows with
    | nil => intro a; simp
    | cons x t ih =>
      intro a
      simp [List.foldl_cons, ih, List.sum_cons]
      ring
  have hagg : ∀ rows : List ℤ, aggregateCostMicros rows = rows.sum := by
    intro rows
    rw [aggregateCostMicros, hsum]
    ring
  have hfmt : formatMoneyMicros 50000000 "USD" = "USD 50.00" := by decide
  refine ⟨hagg, ?_, hfmt, ⟨"USD ", "", ?_⟩, by decide, fun _ => rfl⟩
  · intro rows
    rw [insightsCostDisplay, hagg]
  · rw [hfmt]
    decide

/-- C10: in `google_ads_list_campaigns` the offset is applied to a result
list already capped at `limit` rows by the query's `LIMIT` clause, so with a
positive offset the call returns at most `limit - offset` campaigns, and the
pagination indicators are computed from the post-offset count, so `has_more`
is false and `next_offset` is absent whenever the offset is positive. -/
theorem C10_offset_after_limit (results : List CampaignRow) (limit offset : Nat)
    (hlim : 1 ≤ limit) (hrows : results.length ≤ limit) (hoff : 0 < offset) :
    (listCampaignsPagination results limit offset).count ≤ limit - offset ∧
    (listCampaignsPagination results limit offset).hasMore = false ∧
    (listCampaignsPagination results limit offset).nextOffset = none := by
  have hpost : (applyOffset results offset).length = results.length - offset := by
    simp [applyOffset, hoff]
  have hne : (applyOffset results offset).length ≠ limit := by omega
  refine ⟨?_, ?_, ?_⟩
  · show (applyOffset results offset).length ≤ limit - offset
    omega
  · show ((applyOffset results offset).length == limit) = false
    simpa using hne
  · show (if (applyOffset results offset).length == limit then
        some (offset + limit) else none) = none
    simp [hne]

/-- C10 witness: three rows returned under limit 3 with offset 2 yield one
campaign, `has_more = false` and no next offset. -/
theorem C10_witness :
    (listCampaignsPagination [⟨"1"⟩, ⟨"2"⟩, ⟨"3"⟩] 3 2).count ≤ 3 - 2 ∧
    (listCampaignsPagination [⟨"1"⟩, ⟨"2"⟩, ⟨"3"⟩] 3 2).hasMore = false ∧
    (listCampaignsPagination [⟨"1"⟩, ⟨"2"⟩, ⟨"3"⟩] 3 2).nextOffset = none :=
  C10_offset_after_limit [⟨"1"⟩, ⟨"2"⟩, ⟨"3"⟩] 3 2 (by decide) (by decide) (by decide)

end GoogleAdsMcp
